import Mathlib

/-!
Verification of the RadIntel investment intake flow.

Shallow embedding of:
* the investment math of src/lib/dealmaker.ts (`calculateInvestment`,
  `getNextTierInfo`, `alignToSharePrice`, `FALLBACK_CONFIG`),
* the Step Two wizard section state machine of
  src/components/step-two-details.tsx,
* the API route handlers (create, complete, resume, access-link, PATCH
  investor update), parameterised over the provider's upstream responses.

Money values and JS numbers are modelled as exact rationals; `Math.floor`
and `Math.ceil` are `Int.floor` / `Int.ceil`; `toFixed(2)` followed by
`parseFloat` is rounding half-up at two decimals (`round2`).  Fallible
handlers return a status code together with either an error message or a
typed success payload.
-/

namespace RadIntel

/-- One volume bonus tier of an `InvestmentConfig`
(src/lib/dealmaker.ts, `volumeTiers` entries). -/
structure VolumeTier where
  threshold : ℚ
  bonusPercent : ℚ
  deriving DecidableEq

/-- The investment configuration record (src/lib/dealmaker.ts,
`InvestmentConfig`). -/
structure InvestmentConfig where
  sharePrice : ℚ
  minInvestment : ℚ
  maxInvestment : Option ℚ
  investorFeePercent : ℚ
  campaignRaised : ℚ
  campaignGoal : ℚ
  investorsCount : Option ℚ
  currency : Option String
  currencySymbol : Option String
  securityType : Option String
  presetAmounts : List ℚ
  volumeTiers : List VolumeTier
  deriving DecidableEq

/-- The hardcoded fallback configuration (src/lib/dealmaker.ts,
`FALLBACK_CONFIG`).  The source comment above `presetAmounts` asserts the
presets are aligned to whole share counts at 0.85 per share. -/
def FALLBACK_CONFIG : InvestmentConfig :=
  { sharePrice := 0.85
    minInvestment := 998.75
    maxInvestment := none
    investorFeePercent := 2
    campaignRaised := 14000000
    campaignGoal := 17000000
    investorsCount := none
    currency := none
    currencySymbol := none
    securityType := none
    presetAmounts := [2500.70, 5000.55, 10000.25, 25000.25, 50000.50, 100000.15, 250000.25]
    volumeTiers := [⟨25000, 15⟩, ⟨10000, 10⟩, ⟨5000, 5⟩] }

/-- The result record of `calculateInvestment`
(src/lib/dealmaker.ts, `InvestmentCalculation`). -/
structure InvestmentCalculation where
  amount : ℚ
  baseShares : ℚ
  bonusPercent : ℚ
  bonusShares : ℚ
  totalShares : ℚ
  effectiveSharePrice : ℚ
  investorFee : ℚ
  totalWithFee : ℚ
  deriving DecidableEq

/-- The tier-selection loop inside `calculateInvestment`
(src/lib/dealmaker.ts lines 279-285): walk the supplied tier list in its
given order and take the first tier whose threshold the amount meets or
exceeds; 0 when none qualifies.  Note: the list is NOT sorted first. -/
def selectBonusPercent (amount : ℚ) : List VolumeTier → ℚ
  | [] => 0
  | t :: ts => if t.threshold ≤ amount then t.bonusPercent else selectBonusPercent amount ts

/-- src/lib/dealmaker.ts, `calculateInvestment`. -/
def calculateInvestment (amount : ℚ) (config : InvestmentConfig) : InvestmentCalculation :=
  let sharePrice := config.sharePrice
  let baseShares : ℚ := (⌊amount / sharePrice⌋ : ℤ)
  let bonusPercent := selectBonusPercent amount config.volumeTiers
  let bonusShares : ℚ := (⌊baseShares * (bonusPercent / 100)⌋ : ℤ)
  let totalShares := baseShares + bonusShares
  let effectiveSharePrice := if 0 < totalShares then amount / totalShares else sharePrice
  let investorFee := baseShares * sharePrice * (config.investorFeePercent / 100)
  let totalWithFee := amount + investorFee
  { amount := amount
    baseShares := baseShares
    bonusPercent := bonusPercent
    bonusShares := bonusShares
    totalShares := totalShares
    effectiveSharePrice := effectiveSharePrice
    investorFee := investorFee
    totalWithFee := totalWithFee }

/-- The result record of `getNextTierInfo`. -/
structure NextTierInfo where
  threshold : ℚ
  bonusPercent : ℚ
  amountNeeded : ℚ
  deriving DecidableEq

/-- The ascending-threshold comparator `(a, b) => a.threshold - b.threshold`
used by `getNextTierInfo`. -/
def tierLE (a b : VolumeTier) : Bool := decide (a.threshold ≤ b.threshold)

/-- src/lib/dealmaker.ts, `getNextTierInfo`: sort the tiers ascending by
threshold and return the first tier whose threshold strictly exceeds the
amount, or none. -/
def getNextTierInfo (amount : ℚ) (config : InvestmentConfig) : Option NextTierInfo :=
  let sortedTiers := config.volumeTiers.mergeSort tierLE
  match sortedTiers.find? (fun t => decide (amount < t.threshold)) with
  | some t => some { threshold := t.threshold, bonusPercent := t.bonusPercent,
                     amountNeeded := t.threshold - amount }
  | none => none

/-- `parseFloat(x.toFixed(2))`: round to the nearest value with two decimal
places, half away from zero for the nonnegative values that occur here. -/
def round2 (x : ℚ) : ℚ := (⌊x * 100 + 1 / 2⌋ : ℚ) / 100

/-- src/lib/dealmaker.ts, `alignToSharePrice`: round a dollar amount up to
the nearest value buying a whole number of shares; degenerate inputs pass
through unchanged. -/
def alignToSharePrice (amount sharePrice : ℚ) : ℚ :=
  if sharePrice ≤ 0 ∨ amount ≤ 0 then amount
  else round2 ((⌈amount / sharePrice⌉ : ℚ) * sharePrice)

/-- Spec-side helper: a tier of the list attaining the maximal threshold
(the earliest such tier when thresholds tie), none for the empty list. -/
def bestTier : List VolumeTier → Option VolumeTier
  | [] => none
  | t :: ts =>
    match bestTier ts with
    | none => some t
    | some u => if u.threshold ≤ t.threshold then some t else some u

/-- Spec-side bonus selection, following the specification text: the
bonusPercent of the tier with the highest threshold less than or equal to
the amount, 0 when no tier qualifies.  Order-independent by construction;
to be compared with the source-side `selectBonusPercent`. -/
def specHighestBonus (amount : ℚ) (tiers : List VolumeTier) : ℚ :=
  match bestTier (tiers.filter (fun t => decide (t.threshold ≤ amount))) with
  | some t => t.bonusPercent
  | none => 0

/-! ### Step Two wizard (src/components/step-two-details.tsx) -/

/-- The four wizard sections, in their fixed order. -/
inductive Section where
  | investment
  | contact
  | confirmation
  | payment
  deriving DecidableEq

/-- src/components/step-two-details.tsx line 117, `sectionOrder`. -/
def sectionOrder : List Section :=
  [Section.investment, Section.contact, Section.confirmation, Section.payment]

/-- The sections strictly before `s` in the fixed order
(`sectionOrder.slice(0, idx)`). -/
def priorSections (s : Section) : List Section :=
  sectionOrder.take (sectionOrder.indexOf s)

/-- src/components/step-two-details.tsx lines 119-125,
`isSectionAccessible`: a section is accessible when it is already
completed, or when all sections before it in the order are completed. -/
def isSectionAccessible (completedSections : List Section) (s : Section) : Bool :=
  if s ∈ completedSections then true
  else (priorSections s).all (fun t => decide (t ∈ completedSections))

/-- Contact validation errors, one optional message per validated field
(the component state `contactErrors`). -/
structure ContactErrors where
  firstName : Option String
  lastName : Option String
  email : Option String
  deriving DecidableEq

/-- Contact touched flags (the component state `contactTouched`). -/
structure ContactTouched where
  firstName : Option Bool
  lastName : Option Bool
  email : Option Bool
  deriving DecidableEq

/-- The state held by the StepTwoDetails component, one field per useState
hook. -/
structure StepTwoState where
  amount : ℚ
  shares : ℚ
  expandedSection : Section
  completedSections : List Section
  investorType : String
  firstName : String
  lastName : String
  email : String
  jointFirstName : String
  jointLastName : String
  corporationName : String
  trustName : String
  isSubmitting : Bool
  submitError : String
  submitSuccess : Bool
  contactErrors : ContactErrors
  contactTouched : ContactTouched
  deriving DecidableEq

/-- src/components/step-two-details.tsx lines 106-115,
`handleSectionContinue`: append the section to the completed list when
absent and expand the next section in order when there is one. -/
def handleSectionContinue (currentSection : Section) (st : StepTwoState) : StepTwoState :=
  let completed :=
    if currentSection ∈ st.completedSections then st.completedSections
    else st.completedSections ++ [currentSection]
  let currentIndex := sectionOrder.indexOf currentSection
  let expanded :=
    if currentIndex < sectionOrder.length - 1 then
      sectionOrder.getD (currentIndex + 1) st.expandedSection
    else st.expandedSection
  { st with completedSections := completed, expandedSection := expanded }

/-- src/components/step-two-details.tsx lines 127-131, `toggleSection`:
expand the section when it is accessible, otherwise do nothing. -/
def toggleSection (s : Section) (st : StepTwoState) : StepTwoState :=
  if isSectionAccessible st.completedSections s then { st with expandedSection := s } else st

/-- src/components/step-two-details.tsx lines 277-289, the investor-type
select onChange handler: store the new type and clear every Contact-local
field value together with all validation and touched state.  The read-only
email field is not cleared. -/
def handleInvestorTypeChange (newType : String) (st : StepTwoState) : StepTwoState :=
  { st with
    investorType := newType
    firstName := ""
    lastName := ""
    jointFirstName := ""
    jointLastName := ""
    corporationName := ""
    trustName := ""
    contactErrors := ⟨none, none, none⟩
    contactTouched := ⟨none, none, none⟩ }

/-- src/components/step-two-details.tsx lines 92-97, `handleAmountChange`
applied to an already-parsed numeric value: commit the value as-is and
display the corresponding whole-share count. -/
def stepTwoAmountChange (numValue : ℚ) (config : InvestmentConfig) (st : StepTwoState) :
    StepTwoState :=
  { st with amount := numValue, shares := (calculateInvestment numValue config).baseShares }

/-- src/components/step-two-details.tsx lines 99-104, `handleSharesChange`
applied to an already-parsed integer: commit `shares * sharePrice` with no
further rounding. -/
def stepTwoSharesChange (numValue : ℤ) (config : InvestmentConfig) (st : StepTwoState) :
    StepTwoState :=
  { st with shares := (numValue : ℚ), amount := (numValue : ℚ) * config.sharePrice }

/-- JS `Math.round` on the nonnegative numbers used here: half rounds up. -/
def jsRound (x : ℚ) : ℤ := ⌊x + 1 / 2⌋

/-- src/components/step-one-invest.tsx lines 72-75, the dollars branch of
`handleInputChange`: a typed dollar amount is aligned up to whole shares
before being committed (contrast with Step Two). -/
def stepOneDollarsInput (numValue : ℚ) (config : InvestmentConfig) : ℚ :=
  if 0 < numValue then alignToSharePrice numValue config.sharePrice else 0

/-- src/components/step-one-invest.tsx lines 77-79, the shares branch of
`handleInputChange`: round to a whole share count, clamp at zero, convert
to dollars and round to cents. -/
def stepOneSharesInput (numValue : ℚ) (config : InvestmentConfig) : ℚ :=
  round2 ((max 0 (jsRound numValue) : ℤ) * config.sharePrice)

/-! ### API route handlers

Each handler is a pure function of the credential environment, the parsed
request body, and the outcomes of the upstream provider calls it makes
(each outcome an `Except` value: the provider call either returned a value
or threw a `DealMakerApiError`). -/

/-- The DealMaker credential environment read from process.env. -/
structure ProviderEnv where
  clientId : Option String
  clientSecret : Option String
  dealId : Option String
  deriving DecidableEq

/-- src/lib/dealmaker.ts lines 221-227, `isDealmakerConfigured`. -/
def isDealmakerConfigured (env : ProviderEnv) : Bool :=
  env.clientId.isSome && env.clientSecret.isSome && env.dealId.isSome

/-- A provider-side investor profile (src/lib/dealmaker.ts,
`InvestorProfile`). -/
structure InvestorProfile where
  id : ℤ
  email : String
  first_name : String
  last_name : String
  phone_number : String
  deriving DecidableEq

/-- A provider-side deal investor record (src/lib/dealmaker.ts,
`DealInvestor`); `state` and `current_step` may be absent in responses.
`name` and `created_at` are not declared on the TS interface but appear in
provider responses and are read by the multi-result resume route. -/
structure DealInvestor where
  id : ℤ
  investor_profile_id : ℤ
  subscription_id : String
  investment_value : ℚ
  number_of_securities : ℚ
  state : Option String
  current_step : Option String
  name : Option String
  created_at : Option String
  deriving DecidableEq

/-- The parsed JSON error envelope of a provider error response:
`errors: {field: [messages]}` (possibly present and empty), `error`, or
`message`. -/
structure ErrEnvelope where
  errors : Option (List (String × List String))
  error : Option String
  message : Option String
  deriving DecidableEq

/-- A thrown `DealMakerApiError`: the upstream HTTP status (absent for
non-HTTP failures) and the parsed response body (none when not JSON). -/
structure UpstreamErr where
  status : Option ℕ
  envelope : Option ErrEnvelope
  deriving DecidableEq

/-- A route response: an HTTP status plus either a JSON error body
`{error: message}` or a typed success payload. -/
structure RouteResponse (α : Type) where
  status : ℕ
  body : Except String α

/-- `accessLink.access_link || null`: an empty link string becomes null. -/
def orNull (s : String) : Option String := if s = "" then none else some s

/-- The best-effort access-link pattern: a fetched link passes through
`orNull`, a thrown error becomes null. -/
def linkToPaymentUrl : Except UpstreamErr String → Option String
  | Except.ok link => orNull link
  | Except.error _ => none

/-- Request body of POST /api/investor/complete. -/
structure CompleteBody where
  investorId : Option ℤ
  email : Option String
  firstName : Option String
  lastName : Option String
  investorType : Option String
  jointFirstName : Option String
  jointLastName : Option String
  corporationName : Option String
  trustName : Option String
  deriving DecidableEq

/-- Success payload of POST /api/investor/complete. -/
structure CompletePayload where
  investorId : ℤ
  state : Option String
  paymentUrl : Option String
  deriving DecidableEq

/-- The catch-block message of the complete route: `parsed.error`, then
`parsed.message`, then a generic fallback. -/
def completeErrorMessage (e : UpstreamErr) : String :=
  match e.envelope with
  | some env =>
    match env.error with
    | some msg => msg
    | none =>
      match env.message with
      | some msg => msg
      | none => "Something went wrong. Please try again."
  | none => "Something went wrong. Please try again."

/-- src/app/api/investor/complete/route.ts, POST: 503 without credentials,
400 on missing required fields, then create the typed profile, link it to
the investor, fetch the access link best-effort, and report success. -/
def completeHandler (env : ProviderEnv) (body : CompleteBody)
    (profileRes : Except UpstreamErr InvestorProfile)
    (updateRes : Except UpstreamErr DealInvestor)
    (linkRes : Except UpstreamErr String) : RouteResponse CompletePayload :=
  if !isDealmakerConfigured env then
    ⟨503, Except.error "DealMaker is not configured."⟩
  else if body.investorId.isNone || body.email.isNone || body.firstName.isNone
      || body.lastName.isNone then
    ⟨400, Except.error "Missing required fields."⟩
  else
    match profileRes with
    | Except.error e => ⟨e.status.getD 500, Except.error (completeErrorMessage e)⟩
    | Except.ok _ =>
      match updateRes with
      | Except.error e => ⟨e.status.getD 500, Except.error (completeErrorMessage e)⟩
      | Except.ok updated =>
        ⟨200, Except.ok ⟨updated.id, updated.state, linkToPaymentUrl linkRes⟩⟩

/-- Success payload of POST /api/investor/resume. -/
structure ResumePayload where
  found : Bool
  investorId : Option ℤ
  state : Option String
  accessLink : Option String
  deriving DecidableEq

/-- JS `toLowerCase` on the ASCII state strings used here: lower-case
every character. -/
def jsToLower (s : String) : String := ⟨s.data.map Char.toLower⟩

/-- The broad resumable-state allow-list of the resume route. -/
def resumableStatesBroad : List String :=
  ["invited", "signed", "waiting", "accepted", "draft", "active", "pending"]

/-- `inv.state && resumableStates.includes(inv.state.toLowerCase())` with
the broad list. -/
def isResumableBroad (inv : DealInvestor) : Bool :=
  match inv.state with
  | some s => decide (jsToLower s ∈ resumableStatesBroad)
  | none => false

/-- src/app/api/investor/resume/route.ts, POST: 503 without credentials,
400 without an email, then search the deal's investors, pick the first
resumable one, fetch its access link best-effort, and report it. -/
def resumeHandler (env : ProviderEnv) (email : Option String)
    (searchRes : Except UpstreamErr (List DealInvestor))
    (linkRes : Except UpstreamErr String) : RouteResponse ResumePayload :=
  if !isDealmakerConfigured env then
    ⟨503, Except.error "DealMaker is not configured."⟩
  else if email.isNone then
    ⟨400, Except.error "Email is required."⟩
  else
    match searchRes with
    | Except.error _ => ⟨500, Except.error "Unable to look up your investment. Please try again."⟩
    | Except.ok investors =>
      match investors.find? isResumableBroad with
      | none => ⟨200, Except.ok ⟨false, none, none, none⟩⟩
      | some existing =>
        ⟨200, Except.ok ⟨true, some existing.id, existing.state, linkToPaymentUrl linkRes⟩⟩

/-- One entry of the `investments` array of the multi-result resume route,
which also reports the record's name and creation time. -/
structure InvestmentSummaryNamed where
  id : ℤ
  state : Option String
  amount : ℚ
  shares : ℚ
  name : Option String
  createdAt : Option String
  deriving DecidableEq

/-- Success payload of the multi-result resume route. -/
structure ResumeListPayload where
  found : Bool
  investments : List InvestmentSummaryNamed
  deriving DecidableEq

/-- Projection of a deal investor onto the named summary shape. -/
def toSummaryNamed (inv : DealInvestor) : InvestmentSummaryNamed :=
  ⟨inv.id, inv.state, inv.investment_value, inv.number_of_securities, inv.name, inv.created_at⟩

/-- Request body of the early-create route (POST /api/investor/create). -/
structure CreateEarlyBody where
  email : Option String
  investmentAmount : Option ℚ
  forceCreate : Bool
  deriving DecidableEq

/-- One entry of the `investments` array returned for resumable records. -/
structure InvestmentSummary where
  id : ℤ
  state : Option String
  amount : ℚ
  shares : ℚ
  deriving DecidableEq

/-- Success payload of the early-create route: either the list of existing
resumable investments, or the freshly created investor. -/
inductive CreateEarlyPayload where
  | existing (investments : List InvestmentSummary)
  | created (investorId : ℤ) (profileId : ℤ) (subscriptionId : String) (state : Option String)
  deriving DecidableEq

/-- The narrow resumable-state allow-list of the create route. -/
def resumableStatesNarrow : List String := ["invited", "signed", "waiting"]

/-- `inv.state && resumableStates.includes(inv.state.toLowerCase())` with
the narrow list. -/
def isResumableNarrow (inv : DealInvestor) : Bool :=
  match inv.state with
  | some s => decide (jsToLower s ∈ resumableStatesNarrow)
  | none => false

/-- The descending-id comparator `(a, b) => Number(b.id) - Number(a.id)`. -/
def idDescending (a b : DealInvestor) : Bool := decide (b.id ≤ a.id)

/-- Projection of a deal investor onto the summary shape returned to the
client. -/
def toSummary (inv : DealInvestor) : InvestmentSummary :=
  ⟨inv.id, inv.state, inv.investment_value, inv.number_of_securities⟩

/-- src/unnamed/part_000, the multi-result resume POST: 503 without
credentials, 400 without an email, then search the deal's investors, keep
the narrow-list resumable ones sorted newest first, and return them all
(found = false with an empty list when there are none). -/
def resumeListHandler (env : ProviderEnv) (email : Option String)
    (searchRes : Except UpstreamErr (List DealInvestor)) : RouteResponse ResumeListPayload :=
  if !isDealmakerConfigured env then
    ⟨503, Except.error "DealMaker is not configured."⟩
  else if email.isNone then
    ⟨400, Except.error "Email is required."⟩
  else
    match searchRes with
    | Except.error _ => ⟨500, Except.error "Unable to look up your investment. Please try again."⟩
    | Except.ok investors =>
      let resumableInvestors := (investors.filter isResumableNarrow).mergeSort idDescending
      if resumableInvestors.isEmpty then ⟨200, Except.ok ⟨false, []⟩⟩
      else ⟨200, Except.ok ⟨true, resumableInvestors.map toSummaryNamed⟩⟩

/-- The catch-block message of the early-create route, keyed on the
upstream status. -/
def createEarlyErrorMessage (status : ℕ) : String :=
  if status = 409 then "An investor with this email already exists."
  else if status = 422 then "Invalid email or amount. Please check and try again."
  else "Something went wrong. Please try again."

/-- The catch block of the early-create route. -/
def createEarlyCatch (e : UpstreamErr) : RouteResponse CreateEarlyPayload :=
  ⟨e.status.getD 500, Except.error (createEarlyErrorMessage (e.status.getD 500))⟩

/-- The creation tail of the early-create route: create a minimal profile,
then the investor record. -/
def createEarlyCreate (profileRes : Except UpstreamErr InvestorProfile)
    (investorRes : Except UpstreamErr DealInvestor) : RouteResponse CreateEarlyPayload :=
  match profileRes with
  | Except.error e => createEarlyCatch e
  | Except.ok profile =>
    match investorRes with
    | Except.error e => createEarlyCatch e
    | Except.ok investor =>
      ⟨200, Except.ok (CreateEarlyPayload.created investor.id profile.id
        investor.subscription_id investor.state)⟩

/-- src/unnamed/part_002 lines 19-116, POST /api/investor/create: 503
without credentials, 400 on missing email or amount; unless forceCreate,
search for resumable investors (newest first) and return them; otherwise
create a minimal profile and investor record. -/
def createEarlyHandler (env : ProviderEnv) (body : CreateEarlyBody)
    (searchRes : Except UpstreamErr (List DealInvestor))
    (profileRes : Except UpstreamErr InvestorProfile)
    (investorRes : Except UpstreamErr DealInvestor) : RouteResponse CreateEarlyPayload :=
  if !isDealmakerConfigured env then
    ⟨503, Except.error "DealMaker is not configured. Add API credentials to proceed."⟩
  else if body.email.isNone || body.investmentAmount.isNone then
    ⟨400, Except.error "Email and investment amount are required."⟩
  else if body.forceCreate then createEarlyCreate profileRes investorRes
  else
    match searchRes with
    | Except.error e => createEarlyCatch e
    | Except.ok existingInvestors =>
      let resumable := (existingInvestors.filter isResumableNarrow).mergeSort idDescending
      if resumable.isEmpty then createEarlyCreate profileRes investorRes
      else ⟨200, Except.ok (CreateEarlyPayload.existing (resumable.map toSummary))⟩

/-- Request body of the full-create route (src/unnamed/part_002 lines
129-259). -/
structure CreateFullBody where
  email : Option String
  firstName : Option String
  lastName : Option String
  investorType : Option String
  jointFirstName : Option String
  jointLastName : Option String
  corporationName : Option String
  trustName : Option String
  investmentAmount : Option ℚ
  deriving DecidableEq

/-- Success payload of the full-create route. -/
structure CreateFullPayload where
  investorId : ℤ
  subscriptionId : String
  state : Option String
  paymentUrl : Option String
  deriving DecidableEq

/-- `field.replace(/_/g, " ").replace(/\b\w/g, c => c.toUpperCase())`. -/
def humanizeFieldName (field : String) : String :=
  String.intercalate " " (((field.replace "_" " ").splitOn " ").map String.capitalize)

/-- The `Label: message, message` lines built from the provider's
field-indexed error map. -/
def fieldMessages (apiErrors : List (String × List String)) : List String :=
  apiErrors.map (fun p => humanizeFieldName p.1 ++ ": " ++ String.intercalate ", " p.2)

/-- The catch block of the full-create route: prefer field-level messages,
then status-specific texts, then whatever single message the envelope
carried, then a generic fallback; statuses below 400 are mapped to 500. -/
def createFullCatch (body : CreateFullBody) (e : UpstreamErr) : RouteResponse CreateFullPayload :=
  let status := e.status.getD 0
  let generic := "Something went wrong. Please try again or contact support."
  let apiErrors : List (String × List String) :=
    match e.envelope with
    | some env => match env.errors with
      | some errs => errs
      | none => []
    | none => []
  let envelopeMessage : String :=
    match e.envelope with
    | some env =>
      match env.errors with
      | some _ => generic
      | none =>
        match env.error with
        | some msg => msg
        | none =>
          match env.message with
          | some msg => msg
          | none => generic
    | none => generic
  let msgs := fieldMessages apiErrors
  let userMessage :=
    if msgs ≠ [] then String.intercalate ". " msgs ++ "."
    else if status = 422 then
      if body.email.isNone || body.firstName.isNone || body.lastName.isNone then
        "Please fill in all required fields (first name, last name, and email)."
      else
        "The information provided could not be processed. Please check your details and try again."
    else if status = 409 then
      "An investor with this email already exists for this deal. Please use a different email address, or use the Resume Investment option above."
    else if status = 401 then "Authentication error. Please try again later."
    else if status = 404 then "The investment deal could not be found. Please try again later."
    else if status = 429 then "Too many requests. Please wait a moment and try again."
    else envelopeMessage
  ⟨if 400 ≤ status then status else 500, Except.error userMessage⟩

/-- src/unnamed/part_002 lines 129-259, the full-create POST: 503 without
credentials (no input validation), create the typed profile and the deal
investor, fetch the access link best-effort, and report success. -/
def createFullHandler (env : ProviderEnv) (body : CreateFullBody)
    (profileRes : Except UpstreamErr InvestorProfile)
    (investorRes : Except UpstreamErr DealInvestor)
    (linkRes : Except UpstreamErr String) : RouteResponse CreateFullPayload :=
  if !isDealmakerConfigured env then
    ⟨503, Except.error "DealMaker is not configured. Add API credentials to proceed."⟩
  else
    match profileRes with
    | Except.error e => createFullCatch body e
    | Except.ok _ =>
      match investorRes with
      | Except.error e => createFullCatch body e
      | Except.ok investor =>
        ⟨200, Except.ok ⟨investor.id, investor.subscription_id, investor.state,
          linkToPaymentUrl linkRes⟩⟩

/-- Success payload of the access-link GET route. -/
structure AccessLinkPayload where
  accessLink : Option String
  deriving DecidableEq

/-- src/unnamed/part_001, GET access link by investor id: 503 without
credentials, 400 without an id, 500 when the link fetch fails (here the
fetch is the operation itself, not best-effort). -/
def accessLinkHandler (env : ProviderEnv) (investorId : Option String)
    (linkRes : Except UpstreamErr String) : RouteResponse AccessLinkPayload :=
  if !isDealmakerConfigured env then
    ⟨503, Except.error "DealMaker is not configured."⟩
  else if investorId.isNone then
    ⟨400, Except.error "Investor ID is required."⟩
  else
    match linkRes with
    | Except.ok link => ⟨200, Except.ok ⟨orNull link⟩⟩
    | Except.error _ => ⟨500, Except.error "Unable to get access link. Please try again."⟩

/-- Request body of the PATCH investor-update route. -/
structure PatchBody where
  investorId : Option ℤ
  currentStep : Option String
  deriving DecidableEq

/-- Success payload of the PATCH investor-update route. -/
structure PatchPayload where
  investorId : ℤ
  state : Option String
  currentStep : Option String
  deriving DecidableEq

/-- src/unnamed/part_002 lines 261-289, PATCH: 503 without credentials,
then the update is attempted directly — the body is never validated — and
any upstream failure becomes a plain 500. -/
def patchHandler (env : ProviderEnv) (body : PatchBody)
    (updateRes : Except UpstreamErr DealInvestor) : RouteResponse PatchPayload :=
  if !isDealmakerConfigured env then
    ⟨503, Except.error "DealMaker is not configured"⟩
  else
    match updateRes with
    | Except.ok updated => ⟨200, Except.ok ⟨updated.id, updated.state, updated.current_step⟩⟩
    | Except.error _ => ⟨500, Except.error "Failed to update investor record"⟩

/-- A response is an error with the given status code. -/
def isErrorWith {α : Type} (r : RouteResponse α) (code : ℕ) : Prop :=
  r.status = code ∧ ∃ msg, r.body = Except.error msg

/-- Two wizard states agree on every Contact-local datum: the investor
type, all entered field values, and the validation/touched state. -/
def preservesContact (a b : StepTwoState) : Prop :=
  a.investorType = b.investorType ∧ a.firstName = b.firstName ∧ a.lastName = b.lastName
  ∧ a.email = b.email ∧ a.jointFirstName = b.jointFirstName
  ∧ a.jointLastName = b.jointLastName ∧ a.corporationName = b.corporationName
  ∧ a.trustName = b.trustName ∧ a.contactErrors = b.contactErrors
  ∧ a.contactTouched = b.contactTouched

/-- Two wizard states agree on all entered data of every section: the
Contact data plus the Investment amount and share count, and on the
completed-section markers. -/
def preservesData (a b : StepTwoState) : Prop :=
  preservesContact a b ∧ a.amount = b.amount ∧ a.shares = b.shares
  ∧ a.completedSections = b.completedSections

/-! ### Concrete fixtures used by counterexamples and witnesses -/

/-- An investment configuration whose tiers are supplied in ascending
threshold order, within the documented domain (positive share price). -/
def ascTiersConfig : InvestmentConfig :=
  { sharePrice := 1
    minInvestment := 0
    maxInvestment := none
    investorFeePercent := 0
    campaignRaised := 0
    campaignGoal := 0
    investorsCount := none
    currency := none
    currencySymbol := none
    securityType := none
    presetAmounts := []
    volumeTiers := [⟨5000, 5⟩, ⟨10000, 10⟩] }

/-- A fully configured credential environment. -/
def env0 : ProviderEnv := ⟨some "client-id", some "client-secret", some "deal-id"⟩

/-- An initial Step Two state: nothing completed, Investment expanded. -/
def st0 : StepTwoState :=
  { amount := 0
    shares := 0
    expandedSection := Section.investment
    completedSections := []
    investorType := "individual"
    firstName := ""
    lastName := ""
    email := "jane@example.com"
    jointFirstName := ""
    jointLastName := ""
    corporationName := ""
    trustName := ""
    isSubmitting := false
    submitError := ""
    submitSuccess := false
    contactErrors := ⟨none, none, none⟩
    contactTouched := ⟨none, none, none⟩ }

/-- A resumable deal investor fixture. -/
def inv0 : DealInvestor := ⟨7, 1, "sub-7", 1000, 1176, some "invited", none, none, none⟩

/-- A full-create body fixture with every field absent. -/
def emptyCreateFullBody : CreateFullBody :=
  ⟨none, none, none, none, none, none, none, none, none⟩

/-- An upstream error fixture carrying HTTP status 422 with an unparseable
body. -/
def err422 : UpstreamErr := ⟨some 422, none⟩

/-- An investor profile fixture. -/
def profile0 : InvestorProfile := ⟨1, "jane@example.com", "Jane", "Doe", ""⟩

/-- An upstream error fixture with no HTTP status and no parsed body. -/
def err0 : UpstreamErr := ⟨none, none⟩

/-- A complete-route body fixture with all required fields present. -/
def completeBody0 : CompleteBody :=
  ⟨some 7, some "jane@example.com", some "Jane", some "Doe", some "individual",
   none, none, none, none⟩

/-- A full-create body fixture. -/
def createFullBody0 : CreateFullBody :=
  ⟨some "jane@example.com", some "Jane", some "Doe", some "individual",
   none, none, none, none, some 1000⟩

/-! ### Helper lemmas -/

/-- Rounding to two decimals fixes every value that is already a whole
number of cents. -/
theorem round2_eq_self (v : ℚ) (m : ℤ) (hv : v * 100 = m) : round2 v = v := by
  have hfloor : ⌊(m : ℚ) + 1 / 2⌋ = m := by
    rw [add_comm, Int.floor_add_int]
    norm_num
  rw [round2, hv, hfloor]
  rw [div_eq_iff (by norm_num : (100 : ℚ) ≠ 0), ← hv, mul_comm]

/-! ### Claims about the investment math -/

/-- C4: for every amount ≥ 0 and config with positive share price,
`calculateInvestment` returns baseShares = ⌊amount / sharePrice⌋,
bonusShares = ⌊baseShares * bonusPercent / 100⌋, totalShares =
baseShares + bonusShares, effectiveSharePrice = amount / totalShares when
totalShares > 0 and sharePrice otherwise, investorFee = baseShares *
sharePrice * investorFeePercent / 100, and totalWithFee = amount +
investorFee; it is total, and at amount = 0 the effective share price
falls back to the configured share price. -/
theorem calculateInvestment_fields_spec (a : ℚ) (cfg : InvestmentConfig)
    (ha : 0 ≤ a) (hp : 0 < cfg.sharePrice) :
    (calculateInvestment a cfg).baseShares = ((⌊a / cfg.sharePrice⌋ : ℤ) : ℚ)
    ∧ (calculateInvestment a cfg).bonusShares
      = ((⌊(calculateInvestment a cfg).baseShares
          * (calculateInvestment a cfg).bonusPercent / 100⌋ : ℤ) : ℚ)
    ∧ (calculateInvestment a cfg).totalShares
      = (calculateInvestment a cfg).baseShares + (calculateInvestment a cfg).bonusShares
    ∧ (calculateInvestment a cfg).effectiveSharePrice
      = (if 0 < (calculateInvestment a cfg).totalShares
          then a / (calculateInvestment a cfg).totalShares else cfg.sharePrice)
    ∧ (calculateInvestment a cfg).investorFee
      = (calculateInvestment a cfg).baseShares * cfg.sharePrice * cfg.investorFeePercent / 100
    ∧ (calculateInvestment a cfg).totalWithFee = a + (calculateInvestment a cfg).investorFee
    ∧ (calculateInvestment 0 cfg).effectiveSharePrice = cfg.sharePrice := by
  refine ⟨rfl, ?_, rfl, rfl, ?_, rfl, ?_⟩
  · simp [calculateInvestment, mul_div_assoc]
  · simp [calculateInvestment, mul_div_assoc]
  · simp [calculateInvestment]

/-- Witness for C4 at amount 2500.70 and the fallback configuration. -/
theorem calculateInvestment_fields_spec_witness :
    (0 : ℚ) ≤ 2500.70 ∧ (0 : ℚ) < FALLBACK_CONFIG.sharePrice
    ∧ (calculateInvestment 2500.70 FALLBACK_CONFIG).totalShares
      = (calculateInvestment 2500.70 FALLBACK_CONFIG).baseShares
        + (calculateInvestment 2500.70 FALLBACK_CONFIG).bonusShares :=
  ⟨by norm_num, by norm_num [FALLBACK_CONFIG],
   (calculateInvestment_fields_spec 2500.70 FALLBACK_CONFIG (by norm_num)
     (by norm_num [FALLBACK_CONFIG])).2.2.1⟩

/-- C2 (code bug): 25000.25 is a configured preset of the fallback
configuration, yet `alignToSharePrice` moves it to 25001.05, so it is not
aligned to a whole number of shares at 0.85 — contradicting the source
comment above `presetAmounts` and the specification; the function itself
does match its own documented example alignToSharePrice(2500, 0.85) =
2500.70. -/
theorem fallbackPreset_misaligned :
    (25000.25 : ℚ) ∈ FALLBACK_CONFIG.presetAmounts
    ∧ alignToSharePrice 2500 FALLBACK_CONFIG.sharePrice = 2500.70
    ∧ alignToSharePrice 25000.25 FALLBACK_CONFIG.sharePrice = 25001.05
    ∧ alignToSharePrice 25000.25 FALLBACK_CONFIG.sharePrice ≠ 25000.25 := by
  have h1 : alignToSharePrice 2500 FALLBACK_CONFIG.sharePrice = 2500.70 := by
    show alignToSharePrice 2500 0.85 = 2500.70
    rw [alignToSharePrice, if_neg (by norm_num)]
    rw [show (⌈(2500 : ℚ) / 0.85⌉ : ℤ) = 2942 from by rw [Int.ceil_eq_iff]; norm_num]
    norm_num [round2]
  have h2 : alignToSharePrice 25000.25 FALLBACK_CONFIG.sharePrice = 25001.05 := by
    show alignToSharePrice 25000.25 0.85 = 25001.05
    rw [alignToSharePrice, if_neg (by norm_num)]
    rw [show (⌈(25000.25 : ℚ) / 0.85⌉ : ℤ) = 29413 from by rw [Int.ceil_eq_iff]; norm_num]
    norm_num [round2]
  refine ⟨by norm_num [FALLBACK_CONFIG], h1, h2, ?_⟩
  rw [h2]
  norm_num

/-- C3 counterexample: with the sub-cent share price 0.0157,
aligning 0.01 gives 0.02, but aligning 0.02 again gives 0.03, so
`alignToSharePrice` is not idempotent for every positive share price. -/
theorem alignToSharePrice_not_idempotent :
    (0 : ℚ) < 157 / 10000
    ∧ alignToSharePrice (alignToSharePrice (1 / 100) (157 / 10000)) (157 / 10000)
      ≠ alignToSharePrice (1 / 100) (157 / 10000) := by
  have h1 : alignToSharePrice (1 / 100 : ℚ) (157 / 10000) = 2 / 100 := by
    rw [alignToSharePrice, if_neg (by norm_num)]
    rw [show (⌈(1 / 100 : ℚ) / (157 / 10000)⌉ : ℤ) = 1 from by rw [Int.ceil_eq_iff]; norm_num]
    norm_num [round2]
  have h2 : alignToSharePrice (2 / 100 : ℚ) (157 / 10000) = 3 / 100 := by
    rw [alignToSharePrice, if_neg (by norm_num)]
    rw [show (⌈(2 / 100 : ℚ) / (157 / 10000)⌉ : ℤ) = 2 from by rw [Int.ceil_eq_iff]; norm_num]
    norm_num [round2]
  refine ⟨by norm_num, ?_⟩
  rw [h1, h2]
  norm_num

/-- C3 amended: `alignToSharePrice` is idempotent for every positive share
price that is a whole number of cents (p * 100 an integer); the fallback
share price 0.85 is of this form.  The claim fails only for sub-cent share
prices, where the two-decimal rounding of the aligned value can round up
past the whole-share point. -/
theorem alignToSharePrice_idem_of_cent_price (x p : ℚ) (hp : 0 < p)
    (k : ℤ) (hk : p * 100 = k) :
    alignToSharePrice (alignToSharePrice x p) p = alignToSharePrice x p := by
  by_cases hx : x ≤ 0
  · have h0 : alignToSharePrice x p = x := by rw [alignToSharePrice, if_pos (Or.inr hx)]
    rw [h0]
    exact h0
  · push_neg at hx
    have hcond : ¬(p ≤ 0 ∨ x ≤ 0) := by push_neg; exact ⟨hp, hx⟩
    have hmul : ((⌈x / p⌉ : ℚ) * p) * 100 = ((⌈x / p⌉ * k : ℤ) : ℚ) := by
      push_cast
      rw [← hk]
      ring
    have hr : round2 ((⌈x / p⌉ : ℚ) * p) = (⌈x / p⌉ : ℚ) * p := round2_eq_self _ _ hmul
    have h1 : alignToSharePrice x p = (⌈x / p⌉ : ℚ) * p := by
      rw [alignToSharePrice, if_neg hcond, hr]
    have hspos : (0 : ℚ) < (⌈x / p⌉ : ℚ) := by
      exact_mod_cast Int.ceil_pos.mpr (div_pos hx hp)
    have hy : 0 < (⌈x / p⌉ : ℚ) * p := mul_pos hspos hp
    have hcond2 : ¬(p ≤ 0 ∨ (⌈x / p⌉ : ℚ) * p ≤ 0) := by push_neg; exact ⟨hp, hy⟩
    rw [h1, alignToSharePrice, if_neg hcond2,
      mul_div_cancel_right₀ _ hp.ne', Int.ceil_intCast, hr]

/-- Witness for C3 amended at x = 2500, p = 0.85. -/
theorem alignToSharePrice_idem_of_cent_price_witness :
    (0 : ℚ) < 0.85 ∧ (0.85 : ℚ) * 100 = ((85 : ℤ) : ℚ)
    ∧ alignToSharePrice (alignToSharePrice 2500 0.85) 0.85 = alignToSharePrice 2500 0.85 :=
  ⟨by norm_num, by norm_num,
   alignToSharePrice_idem_of_cent_price 2500 0.85 (by norm_num) 85 (by norm_num)⟩

/-- `bestTier` returns an element of its list. -/
theorem bestTier_mem (l : List VolumeTier) (u : VolumeTier) (h : bestTier l = some u) :
    u ∈ l := by
  induction l with
  | nil => simp [bestTier] at h
  | cons t ts ih =>
    cases hb : bestTier ts with
    | none =>
      rw [bestTier, hb] at h
      simp only [Option.some.injEq] at h
      simp [← h]
    | some v =>
      rw [bestTier, hb] at h
      dsimp only at h
      by_cases hc : v.threshold ≤ t.threshold
      · rw [if_pos hc] at h
        simp only [Option.some.injEq] at h
        simp [← h]
      · rw [if_neg hc] at h
        simp only [Option.some.injEq] at h
        exact List.mem_cons_of_mem _ (ih (h ▸ hb))

/-- When the head strictly dominates every other threshold, `bestTier`
picks the head. -/
theorem bestTier_cons_of_max (t : VolumeTier) (l : List VolumeTier)
    (h : ∀ u ∈ l, u.threshold < t.threshold) : bestTier (t :: l) = some t := by
  cases hb : bestTier l with
  | none => simp [bestTier, hb]
  | some v =>
    have hv : v ∈ l := bestTier_mem l v hb
    simp [bestTier, hb, (h v hv).le]

/-- On a strictly-descending tier list, the source's first-match loop
agrees with the spec's highest-qualifying-threshold selection. -/
theorem selectBonus_eq_specHighest (a : ℚ) (l : List VolumeTier)
    (hs : l.Pairwise (fun t u => u.threshold < t.threshold)) :
    selectBonusPercent a l = specHighestBonus a l := by
  induction l with
  | nil => rfl
  | cons t ts ih =>
    rw [List.pairwise_cons] at hs
    obtain ⟨hall, htail⟩ := hs
    by_cases h : t.threshold ≤ a
    · have hfilter : (t :: ts).filter (fun u => decide (u.threshold ≤ a))
          = t :: ts.filter (fun u => decide (u.threshold ≤ a)) := by
        simp [List.filter_cons, h]
      have hmax : ∀ u ∈ ts.filter (fun u => decide (u.threshold ≤ a)),
          u.threshold < t.threshold := fun u hu => hall u (List.mem_of_mem_filter hu)
      rw [selectBonusPercent, if_pos h, specHighestBonus, hfilter,
        bestTier_cons_of_max t _ hmax]
    · have hfilter : (t :: ts).filter (fun u => decide (u.threshold ≤ a))
          = ts.filter (fun u => decide (u.threshold ≤ a)) := by
        simp [List.filter_cons, h]
      rw [selectBonusPercent, if_neg h, ih htail]
      simp only [specHighestBonus, hfilter]

/-- C1 counterexample: with tiers supplied in ascending threshold order
([5000: 5%, 10000: 10%], share price 1 > 0) and amount 10000 ≥ 0, the
code's first-match loop returns 5, not the 10 carried by the highest
threshold the amount meets, because `calculateInvestment` never sorts the
supplied tier list. -/
theorem calculateInvestment_bonus_order_dependent :
    (0 : ℚ) ≤ 10000 ∧ 0 < ascTiersConfig.sharePrice
    ∧ (calculateInvestment 10000 ascTiersConfig).bonusPercent = 5
    ∧ specHighestBonus 10000 ascTiersConfig.volumeTiers = 10
    ∧ (calculateInvestment 10000 ascTiersConfig).bonusPercent
      ≠ specHighestBonus 10000 ascTiersConfig.volumeTiers := by
  have hcode : (calculateInvestment 10000 ascTiersConfig).bonusPercent = 5 := by
    norm_num [calculateInvestment, ascTiersConfig, selectBonusPercent]
  have hspec : specHighestBonus 10000 ascTiersConfig.volumeTiers = 10 := by
    norm_num [specHighestBonus, ascTiersConfig, List.filter_cons, bestTier]
  refine ⟨by norm_num, by norm_num [ascTiersConfig], hcode, hspec, ?_⟩
  rw [hcode, hspec]
  norm_num

/-- C1 amended: for every amount ≥ 0 and config with positive share price
whose volume tiers are supplied in strictly descending threshold order (as
the fallback configuration's are), `calculateInvestment` returns the
bonusPercent of the tier with the highest threshold ≤ amount, and 0 when
no tier qualifies.  For unsorted tier lists the code instead returns the
first supplied tier that qualifies. -/
theorem calculateInvestment_bonus_highest_of_sorted (a : ℚ) (cfg : InvestmentConfig)
    (ha : 0 ≤ a) (hp : 0 < cfg.sharePrice)
    (hsorted : cfg.volumeTiers.Pairwise (fun t u => u.threshold < t.threshold)) :
    (calculateInvestment a cfg).bonusPercent = specHighestBonus a cfg.volumeTiers :=
  selectBonus_eq_specHighest a cfg.volumeTiers hsorted

/-- Witness for C1 amended at amount 10000 and the fallback configuration
(both sides give the 10 percent tier). -/
theorem calculateInvestment_bonus_highest_of_sorted_witness :
    (0 : ℚ) ≤ 10000 ∧ 0 < FALLBACK_CONFIG.sharePrice
    ∧ FALLBACK_CONFIG.volumeTiers.Pairwise (fun t u => u.threshold < t.threshold)
    ∧ (calculateInvestment 10000 FALLBACK_CONFIG).bonusPercent
      = specHighestBonus 10000 FALLBACK_CONFIG.volumeTiers :=
  ⟨by norm_num, by norm_num [FALLBACK_CONFIG],
   by norm_num [FALLBACK_CONFIG, List.pairwise_cons],
   calculateInvestment_bonus_highest_of_sorted 10000 FALLBACK_CONFIG (by norm_num)
     (by norm_num [FALLBACK_CONFIG]) (by norm_num [FALLBACK_CONFIG, List.pairwise_cons])⟩

/-- The ascending comparator is transitive. -/
theorem tierLE_trans : ∀ (a b c : VolumeTier),
    tierLE a b = true → tierLE b c = true → tierLE a c = true := by
  intro a b c hab hbc
  simp only [tierLE, decide_eq_true_eq] at *
  exact le_trans hab hbc

/-- The ascending comparator is total. -/
theorem tierLE_total : ∀ (a b : VolumeTier), (tierLE a b || tierLE b a) = true := by
  intro a b
  simp only [tierLE, Bool.or_eq_true, decide_eq_true_eq]
  exact le_total _ _

/-- In a list sorted ascending by threshold, the first element satisfying
a predicate has a threshold no larger than any element satisfying it. -/
theorem find?_min_of_sorted (p : VolumeTier → Bool) :
    ∀ (l : List VolumeTier), l.Pairwise (fun a b => tierLE a b = true) →
    ∀ (t : VolumeTier), l.find? p = some t →
    ∀ u ∈ l, p u = true → t.threshold ≤ u.threshold := by
  intro l
  induction l with
  | nil => intro _ t hf; simp at hf
  | cons a l ih =>
    intro hs t hf u hu hpu
    rw [List.pairwise_cons] at hs
    obtain ⟨hhead, htail⟩ := hs
    by_cases hpa : p a = true
    · rw [List.find?_cons_of_pos _ hpa] at hf
      simp only [Option.some.injEq] at hf
      subst hf
      rcases List.mem_cons.mp hu with rfl | hu2
      · exact le_refl _
      · simpa [tierLE, decide_eq_true_eq] using hhead u hu2
    · rw [List.find?_cons_of_neg _ hpa] at hf
      rcases List.mem_cons.mp hu with rfl | hu2
      · exact absurd hpu hpa
      · exact ih htail t hf u hu2 hpu

/-- C6: `getNextTierInfo` returns none exactly when the amount meets or
exceeds every tier threshold; otherwise it returns the tier with the
smallest threshold strictly exceeding the amount, with amountNeeded =
threshold - amount, which is strictly positive. -/
theorem getNextTierInfo_spec (a : ℚ) (cfg : InvestmentConfig) :
    (getNextTierInfo a cfg = none ↔ ∀ t ∈ cfg.volumeTiers, t.threshold ≤ a)
    ∧ ∀ info, getNextTierInfo a cfg = some info →
        (∃ t ∈ cfg.volumeTiers, t.threshold = info.threshold
          ∧ t.bonusPercent = info.bonusPercent)
        ∧ a < info.threshold
        ∧ (∀ t ∈ cfg.volumeTiers, a < t.threshold → info.threshold ≤ t.threshold)
        ∧ info.amountNeeded = info.threshold - a
        ∧ 0 < info.amountNeeded := by
  have hperm := List.mergeSort_perm cfg.volumeTiers tierLE
  have hsorted := List.sorted_mergeSort tierLE_trans tierLE_total cfg.volumeTiers
  constructor
  · cases hf : (cfg.volumeTiers.mergeSort tierLE).find? (fun t => decide (a < t.threshold)) with
    | none =>
      have hnone : getNextTierInfo a cfg = none := by
        simp only [getNextTierInfo, hf]
      refine iff_of_true hnone ?_
      intro t ht
      have ht' : t ∈ cfg.volumeTiers.mergeSort tierLE := hperm.mem_iff.mpr ht
      have := List.find?_eq_none.mp hf t ht'
      simpa using this
    | some t =>
      have hsome : getNextTierInfo a cfg
          = some ⟨t.threshold, t.bonusPercent, t.threshold - a⟩ := by
        simp only [getNextTierInfo, hf]
      refine iff_of_false (by rw [hsome]; simp) ?_
      intro hall
      have ht : t ∈ cfg.volumeTiers := hperm.mem_iff.mp (List.mem_of_find?_eq_some hf)
      have hpt := List.find?_some hf
      simp only [decide_eq_true_eq] at hpt
      exact absurd (hall t ht) (not_le.mpr hpt)
  · intro info hinfo
    cases hf : (cfg.volumeTiers.mergeSort tierLE).find? (fun t => decide (a < t.threshold)) with
    | none =>
      simp only [getNextTierInfo, hf] at hinfo
      exact absurd hinfo (by simp)
    | some t =>
      simp only [getNextTierInfo, hf, Option.some.injEq] at hinfo
      subst hinfo
      have htmem : t ∈ cfg.volumeTiers := hperm.mem_iff.mp (List.mem_of_find?_eq_some hf)
      have hpt := List.find?_some hf
      simp only [decide_eq_true_eq] at hpt
      refine ⟨⟨t, htmem, rfl, rfl⟩, hpt, ?_, rfl, ?_⟩
      · intro u hu hau
        have hu' : u ∈ cfg.volumeTiers.mergeSort tierLE := hperm.mem_iff.mpr hu
        exact find?_min_of_sorted (fun t => decide (a < t.threshold)) _ hsorted t hf u hu'
          (by simpa using hau)
      · exact sub_pos.mpr hpt

/-- Witness for C6: at amount 30000, which meets every fallback tier
threshold, the next-tier lookup reports none. -/
theorem getNextTierInfo_spec_witness :
    getNextTierInfo 30000 FALLBACK_CONFIG = none :=
  (getNextTierInfo_spec 30000 FALLBACK_CONFIG).1.mpr
    (by norm_num [FALLBACK_CONFIG, List.forall_mem_cons])

/-- C5: for the fixed section order, a section is accessible exactly when
it is already completed or all sections before it are completed;
completing a section adds it to the completed set exactly once (no
duplicates, unchanged when already present) and advances the expanded
section to the next section in order, except from the last; toggling
expands an accessible section and does nothing for an inaccessible one. -/
theorem stepTwo_wizard_spec :
    (∀ (completed : List Section) (s : Section),
      isSectionAccessible completed s = true ↔
        (s ∈ completed ∨ ∀ t ∈ priorSections s, t ∈ completed))
    ∧ (∀ (st : StepTwoState) (s : Section),
        s ∈ (handleSectionContinue s st).completedSections
        ∧ (∀ t, t ∈ (handleSectionContinue s st).completedSections ↔
            (t ∈ st.completedSections ∨ t = s))
        ∧ (st.completedSections.Nodup → (handleSectionContinue s st).completedSections.Nodup)
        ∧ (s ∈ st.completedSections →
            (handleSectionContinue s st).completedSections = st.completedSections))
    ∧ (∀ st : StepTwoState,
        (handleSectionContinue Section.investment st).expandedSection = Section.contact
        ∧ (handleSectionContinue Section.contact st).expandedSection = Section.confirmation
        ∧ (handleSectionContinue Section.confirmation st).expandedSection = Section.payment
        ∧ (handleSectionContinue Section.payment st).expandedSection = st.expandedSection)
    ∧ (∀ (st : StepTwoState) (s : Section),
        (isSectionAccessible st.completedSections s = true →
          (toggleSection s st).expandedSection = s)
        ∧ (isSectionAccessible st.completedSections s = false → toggleSection s st = st)) := by
  refine ⟨?_, ?_, ?_, ?_⟩
  · intro completed s
    by_cases hmem : s ∈ completed
    · simp [isSectionAccessible, hmem]
    · simp [isSectionAccessible, hmem, List.all_eq_true]
  · intro st s
    by_cases h : s ∈ st.completedSections
    · refine ⟨by simp [handleSectionContinue, h], ?_, ?_, by simp [handleSectionContinue, h]⟩
      · intro t
        simp only [handleSectionContinue, if_pos h]
        constructor
        · exact fun ht => Or.inl ht
        · rintro (ht | rfl)
          · exact ht
          · exact h
      · intro hnd
        simpa [handleSectionContinue, h] using hnd
    · refine ⟨by simp [handleSectionContinue, h], ?_, ?_, by simp [handleSectionContinue, h]⟩
      · intro t
        simp [handleSectionContinue, h, List.mem_append]
      · intro hnd
        simp only [handleSectionContinue, if_neg h]
        simp [List.nodup_append, hnd, h]
  · intro st
    exact ⟨rfl, rfl, rfl, rfl⟩
  · intro st s
    constructor
    · intro hacc
      simp [toggleSection, hacc]
    · intro hacc
      simp [toggleSection, hacc]

/-- Witness for C5: completing Investment from the initial state marks it
completed exactly once and expands Contact, and Contact becomes
accessible. -/
theorem stepTwo_wizard_spec_witness :
    Section.investment ∈ (handleSectionContinue Section.investment st0).completedSections
    ∧ (handleSectionContinue Section.investment st0).completedSections.Nodup
    ∧ (handleSectionContinue Section.investment st0).expandedSection = Section.contact
    ∧ isSectionAccessible [Section.investment] Section.contact = true :=
  ⟨(stepTwo_wizard_spec.2.1 st0 Section.investment).1,
   (stepTwo_wizard_spec.2.1 st0 Section.investment).2.2.1 (by simp [st0]),
   (stepTwo_wizard_spec.2.2.1 st0).1,
   (stepTwo_wizard_spec.1 [Section.investment] Section.contact).mpr
     (Or.inr (by simp [priorSections, sectionOrder]))⟩

/-- C7: changing the investor type clears every Contact-local field value
and all validation and touched state (the read-only email and the other
sections' data are untouched), while toggling sections — in particular
collapsing and re-opening — and completing a section never change any
entered data; Investment-amount edits leave the Contact data unchanged. -/
theorem contact_clear_frame_spec :
    (∀ (v : String) (st : StepTwoState),
      (handleInvestorTypeChange v st).firstName = ""
      ∧ (handleInvestorTypeChange v st).lastName = ""
      ∧ (handleInvestorTypeChange v st).jointFirstName = ""
      ∧ (handleInvestorTypeChange v st).jointLastName = ""
      ∧ (handleInvestorTypeChange v st).corporationName = ""
      ∧ (handleInvestorTypeChange v st).trustName = ""
      ∧ (handleInvestorTypeChange v st).contactErrors = ⟨none, none, none⟩
      ∧ (handleInvestorTypeChange v st).contactTouched = ⟨none, none, none⟩
      ∧ (handleInvestorTypeChange v st).investorType = v
      ∧ (handleInvestorTypeChange v st).email = st.email
      ∧ (handleInvestorTypeChange v st).amount = st.amount
      ∧ (handleInvestorTypeChange v st).shares = st.shares
      ∧ (handleInvestorTypeChange v st).completedSections = st.completedSections)
    ∧ (∀ (s : Section) (st : StepTwoState), preservesData (toggleSection s st) st)
    ∧ (∀ (s₁ s₂ : Section) (st : StepTwoState),
        preservesData (toggleSection s₂ (toggleSection s₁ st)) st)
    ∧ (∀ (s : Section) (st : StepTwoState),
        preservesContact (handleSectionContinue s st) st
        ∧ (handleSectionContinue s st).amount = st.amount
        ∧ (handleSectionContinue s st).shares = st.shares)
    ∧ (∀ (v : ℚ) (cfg : InvestmentConfig) (st : StepTwoState),
        preservesContact (stepTwoAmountChange v cfg st) st)
    ∧ (∀ (n : ℤ) (cfg : InvestmentConfig) (st : StepTwoState),
        preservesContact (stepTwoSharesChange n cfg st) st) := by
  refine ⟨?_, ?_, ?_, ?_, ?_, ?_⟩
  · intro v st
    exact ⟨rfl, rfl, rfl, rfl, rfl, rfl, rfl, rfl, rfl, rfl, rfl, rfl, rfl⟩
  · intro s st
    rw [toggleSection]
    split
    · exact ⟨⟨rfl, rfl, rfl, rfl, rfl, rfl, rfl, rfl, rfl, rfl⟩, rfl, rfl, rfl⟩
    · exact ⟨⟨rfl, rfl, rfl, rfl, rfl, rfl, rfl, rfl, rfl, rfl⟩, rfl, rfl, rfl⟩
  · intro s₁ s₂ st
    rw [toggleSection, toggleSection]
    split <;> split <;>
      exact ⟨⟨rfl, rfl, rfl, rfl, rfl, rfl, rfl, rfl, rfl, rfl⟩, rfl, rfl, rfl⟩
  · intro s st
    exact ⟨⟨rfl, rfl, rfl, rfl, rfl, rfl, rfl, rfl, rfl, rfl⟩, rfl, rfl⟩
  · intro v cfg st
    exact ⟨rfl, rfl, rfl, rfl, rfl, rfl, rfl, rfl, rfl, rfl⟩
  · intro n cfg st
    exact ⟨rfl, rfl, rfl, rfl, rfl, rfl, rfl, rfl, rfl, rfl⟩

/-- C10: in Step Two, an amount edit commits the parsed value unchanged
(no alignment to whole shares, unlike Step One) and displays
⌊amount / sharePrice⌋ shares; a shares edit commits shares * sharePrice
with no further rounding.  At amount 1000 with the fallback price 0.85 the
committed Step Two amount buys a fractional share count, while Step One
would commit the aligned 1000.45. -/
theorem stepTwo_amount_commit_spec (v : ℚ) (n : ℤ) (cfg : InvestmentConfig)
    (st : StepTwoState) :
    (stepTwoAmountChange v cfg st).amount = v
    ∧ (stepTwoAmountChange v cfg st).shares = ((⌊v / cfg.sharePrice⌋ : ℤ) : ℚ)
    ∧ (stepTwoSharesChange n cfg st).amount = (n : ℚ) * cfg.sharePrice
    ∧ (stepTwoSharesChange n cfg st).shares = (n : ℚ)
    ∧ (stepTwoAmountChange 1000 FALLBACK_CONFIG st).amount
      ≠ alignToSharePrice 1000 FALLBACK_CONFIG.sharePrice
    ∧ stepOneDollarsInput 1000 FALLBACK_CONFIG
      = alignToSharePrice 1000 FALLBACK_CONFIG.sharePrice
    ∧ ¬(∃ k : ℤ, (stepTwoAmountChange 1000 FALLBACK_CONFIG st).amount
        = (k : ℚ) * FALLBACK_CONFIG.sharePrice) := by
  have halign : alignToSharePrice 1000 FALLBACK_CONFIG.sharePrice = 1000.45 := by
    show alignToSharePrice 1000 0.85 = 1000.45
    rw [alignToSharePrice, if_neg (by norm_num)]
    rw [show (⌈(1000 : ℚ) / 0.85⌉ : ℤ) = 1177 from by rw [Int.ceil_eq_iff]; norm_num]
    norm_num [round2]
  refine ⟨rfl, rfl, rfl, rfl, ?_, ?_, ?_⟩
  · show (1000 : ℚ) ≠ alignToSharePrice 1000 FALLBACK_CONFIG.sharePrice
    rw [halign]
    norm_num
  · rw [stepOneDollarsInput, if_pos (by norm_num)]
  · rintro ⟨k, hk⟩
    have hk' : (1000 : ℚ) = (k : ℚ) * (17 / 20) := by
      rw [show ((17 : ℚ) / 20) = FALLBACK_CONFIG.sharePrice from by norm_num [FALLBACK_CONFIG]]
      exact hk
    have hz : (20000 : ℤ) = k * 17 := by
      have h20 : (1000 : ℚ) * 20 = (k : ℚ) * 17 := by
        rw [hk']
        ring
      exact_mod_cast h20
    omega

/-- C8 amended: every route handler — early-create, full-create,
complete, both resume variants, access-link, PATCH — returns 503 with an
error body when the provider credentials are absent; the early-create,
complete, both resume, and access-link handlers return 400 with an error
body when a required input field is missing; the full-create and
investor-update PATCH handlers, however, perform no input validation of
their own: whatever body fields are absent, PATCH returns 200 on upstream
success and a plain 500 on upstream failure, and full-create returns 200
on upstream success and otherwise surfaces the upstream status (500 when
that status is below 400), so neither ever answers missing input with its
own 400. -/
theorem api_status_spec :
    (∀ env : ProviderEnv, isDealmakerConfigured env = false →
      (∀ b s p i, isErrorWith (createEarlyHandler env b s p i) 503)
      ∧ (∀ fb p i l, isErrorWith (createFullHandler env fb p i l) 503)
      ∧ (∀ b p u l, isErrorWith (completeHandler env b p u l) 503)
      ∧ (∀ em s l, isErrorWith (resumeHandler env em s l) 503)
      ∧ (∀ em s, isErrorWith (resumeListHandler env em s) 503)
      ∧ (∀ iid l, isErrorWith (accessLinkHandler env iid l) 503)
      ∧ (∀ b u, isErrorWith (patchHandler env b u) 503))
    ∧ (∀ env : ProviderEnv, isDealmakerConfigured env = true →
      (∀ b s p i, (b.email = none ∨ b.investmentAmount = none) →
        isErrorWith (createEarlyHandler env b s p i) 400)
      ∧ (∀ b p u l,
          (b.investorId = none ∨ b.email = none ∨ b.firstName = none ∨ b.lastName = none) →
          isErrorWith (completeHandler env b p u l) 400)
      ∧ (∀ s l, isErrorWith (resumeHandler env none s l) 400)
      ∧ (∀ s, isErrorWith (resumeListHandler env none s) 400)
      ∧ (∀ l, isErrorWith (accessLinkHandler env none l) 400)
      ∧ (∀ fb pr ir l, (createFullHandler env fb (Except.ok pr) (Except.ok ir) l).status = 200)
      ∧ (∀ fb e i l, (createFullHandler env fb (Except.error e) i l).status
          = (if 400 ≤ e.status.getD 0 then e.status.getD 0 else 500))
      ∧ (∀ fb pr e l, (createFullHandler env fb (Except.ok pr) (Except.error e) l).status
          = (if 400 ≤ e.status.getD 0 then e.status.getD 0 else 500))
      ∧ (∀ b u, (patchHandler env b u).status ≠ 400
          ∧ (∀ d, u = Except.ok d → (patchHandler env b u).status = 200)
          ∧ (∀ e, u = Except.error e → (patchHandler env b u).status = 500))) := by
  constructor
  · intro env henv
    refine ⟨?_, ?_, ?_, ?_, ?_, ?_, ?_⟩
    · intro b s p i
      simp [createEarlyHandler, henv, isErrorWith]
    · intro fb p i l
      simp [createFullHandler, henv, isErrorWith]
    · intro b p u l
      simp [completeHandler, henv, isErrorWith]
    · intro em s l
      simp [resumeHandler, henv, isErrorWith]
    · intro em s
      simp [resumeListHandler, henv, isErrorWith]
    · intro iid l
      simp [accessLinkHandler, henv, isErrorWith]
    · intro b u
      simp [patchHandler, henv, isErrorWith]
  · intro env henv
    refine ⟨?_, ?_, ?_, ?_, ?_, ?_, ?_, ?_, ?_⟩
    · intro b s p i hb
      rcases hb with hb | hb <;> simp [createEarlyHandler, henv, hb, isErrorWith]
    · intro b p u l hb
      rcases hb with hb | hb | hb | hb <;> simp [completeHandler, henv, hb, isErrorWith]
    · intro s l
      simp [resumeHandler, henv, isErrorWith]
    · intro s
      simp [resumeListHandler, henv, isErrorWith]
    · intro l
      simp [accessLinkHandler, henv, isErrorWith]
    · intro fb pr ir l
      simp [createFullHandler, henv]
    · intro fb e i l
      simp [createFullHandler, henv, createFullCatch]
    · intro fb pr e l
      simp [createFullHandler, henv, createFullCatch]
    · intro b u
      refine ⟨?_, ?_, ?_⟩
      · cases u <;> simp [patchHandler, henv]
      · intro d hd
        subst hd
        simp [patchHandler, henv]
      · intro e he
        subst he
        simp [patchHandler, henv]

/-- C8 counterexample: with credentials configured and every required
body field absent, the PATCH investor-update handler returns 500 on
upstream failure, and the full-create handler surfaces an upstream 422 —
in neither case the 400 the claim requires for missing input. -/
theorem patch_no_validation_counterexample :
    isDealmakerConfigured env0 = true
    ∧ (patchHandler env0 ⟨none, none⟩ (Except.error err0)).status = 500
    ∧ (patchHandler env0 ⟨none, none⟩ (Except.error err0)).status ≠ 400
    ∧ (createFullHandler env0 emptyCreateFullBody (Except.error err422)
        (Except.error err422) (Except.error err0)).status = 422
    ∧ (createFullHandler env0 emptyCreateFullBody (Except.error err422)
        (Except.error err422) (Except.error err0)).status ≠ 400 := by
  have hcf : (createFullHandler env0 emptyCreateFullBody (Except.error err422)
      (Except.error err422) (Except.error err0)).status = 422 := by
    simp [createFullHandler, createFullCatch, isDealmakerConfigured, env0, err422]
  refine ⟨rfl, rfl, ?_, hcf, ?_⟩
  · intro h
    simp [patchHandler, isDealmakerConfigured, env0, err0] at h
  · rw [hcf]
    norm_num

/-- Witness for C8 amended: the complete and full-create handlers answer
503 without credentials; the complete and multi-result resume handlers
answer 400 on missing input; the full-create handler answers 200 on
upstream success even with an empty body; and the PATCH handler answers
500 on a failed unvalidated update. -/
theorem api_status_spec_witness :
    isErrorWith (completeHandler ⟨none, none, none⟩ completeBody0 (Except.error err0)
      (Except.error err0) (Except.error err0)) 503
    ∧ isErrorWith (createFullHandler ⟨none, none, none⟩ createFullBody0 (Except.error err0)
        (Except.error err0) (Except.error err0)) 503
    ∧ isErrorWith (completeHandler env0
        ⟨none, some "jane@example.com", some "Jane", some "Doe", none, none, none, none, none⟩
        (Except.error err0) (Except.error err0) (Except.error err0)) 400
    ∧ isErrorWith (resumeListHandler env0 none (Except.error err0)) 400
    ∧ (createFullHandler env0 emptyCreateFullBody (Except.ok profile0) (Except.ok inv0)
        (Except.error err0)).status = 200
    ∧ (patchHandler env0 ⟨none, none⟩ (Except.error err0)).status = 500 :=
  ⟨(api_status_spec.1 ⟨none, none, none⟩ rfl).2.2.1 completeBody0
      (Except.error err0) (Except.error err0) (Except.error err0),
   (api_status_spec.1 ⟨none, none, none⟩ rfl).2.1 createFullBody0
      (Except.error err0) (Except.error err0) (Except.error err0),
   (api_status_spec.2 env0 rfl).2.1
      ⟨none, some "jane@example.com", some "Jane", some "Doe", none, none, none, none, none⟩
      (Except.error err0) (Except.error err0) (Except.error err0) (Or.inl rfl),
   (api_status_spec.2 env0 rfl).2.2.2.1 (Except.error err0),
   (api_status_spec.2 env0 rfl).2.2.2.2.2.1 emptyCreateFullBody profile0 inv0
      (Except.error err0),
   ((api_status_spec.2 env0 rfl).2.2.2.2.2.2.2.2 ⟨none, none⟩ (Except.error err0)).2.2
      err0 rfl⟩

/-- C9: wherever the access-link fetch is part of a larger operation —
investor completion, full creation, resumption — its failure does not turn
the operation's success into an error: the handler still returns 200 with
the investor reported and the redirect URL (paymentUrl / accessLink) set
to null. -/
theorem accessLink_best_effort (env : ProviderEnv) (b : CompleteBody)
    (fb : CreateFullBody) (em : String) (iid : ℤ) (bem bfn bln : String)
    (profile : InvestorProfile) (updated investor : DealInvestor)
    (invs : List DealInvestor) (inv : DealInvestor) (e : UpstreamErr)
    (henv : isDealmakerConfigured env = true)
    (h1 : b.investorId = some iid) (h2 : b.email = some bem)
    (h3 : b.firstName = some bfn) (h4 : b.lastName = some bln)
    (hfind : invs.find? isResumableBroad = some inv) :
    completeHandler env b (Except.ok profile) (Except.ok updated) (Except.error e)
      = ⟨200, Except.ok ⟨updated.id, updated.state, none⟩⟩
    ∧ createFullHandler env fb (Except.ok profile) (Except.ok investor) (Except.error e)
      = ⟨200, Except.ok ⟨investor.id, investor.subscription_id, investor.state, none⟩⟩
    ∧ resumeHandler env (some em) (Except.ok invs) (Except.error e)
      = ⟨200, Except.ok ⟨true, some inv.id, inv.state, none⟩⟩ := by
  refine ⟨?_, ?_, ?_⟩
  · simp [completeHandler, henv, h1, h2, h3, h4, linkToPaymentUrl]
  · simp [createFullHandler, henv, linkToPaymentUrl]
  · simp [resumeHandler, henv, hfind, linkToPaymentUrl]

/-- Witness for C9 on concrete fixtures: a resumable investor and a failed
access-link fetch still produce 200 responses with null redirect URLs. -/
theorem accessLink_best_effort_witness :
    completeHandler env0 completeBody0 (Except.ok profile0) (Except.ok inv0)
      (Except.error err0) = ⟨200, Except.ok ⟨inv0.id, inv0.state, none⟩⟩
    ∧ createFullHandler env0 createFullBody0 (Except.ok profile0) (Except.ok inv0)
      (Except.error err0)
      = ⟨200, Except.ok ⟨inv0.id, inv0.subscription_id, inv0.state, none⟩⟩
    ∧ resumeHandler env0 (some "jane@example.com") (Except.ok [inv0]) (Except.error err0)
      = ⟨200, Except.ok ⟨true, some inv0.id, inv0.state, none⟩⟩ :=
  accessLink_best_effort env0 completeBody0 createFullBody0 "jane@example.com"
    7 "jane@example.com" "Jane" "Doe" profile0 inv0 inv0 [inv0] inv0 err0
    rfl rfl rfl rfl rfl (by decide)

end RadIntel
